import Mathlib

/-!
# Verification of the card-generator core (`scripts/data/card_generator.py`)

Shallow embedding of the card-number synthesis pipeline: Luhn checksum
(`LuhnValidator`), Markov digit model (`MarkovChainGenerator`), BIN lookup
(`BINDatabase`), and the card synthesizer (`CardGenerator`).

Modelling conventions:
* Digit strings (card numbers, BIN codes fed to the arithmetic pipeline) are
  `List Nat`, most significant digit first; `int(s)` on such a string is
  `natOfDigits`.
* `BINDatabase.detect_card_brand` works on arbitrary Python strings, so it is
  embedded twice at its two input domains: over Lean `String`
  (`detect_card_brand`, used for brand resolution of arbitrary inputs) and
  over digit lists (`detect_card_brand_digits`, the version composed into the
  all-digit generation pipeline).  Both mirror the same source lines.
* Python floats drawn by `random.random()` are modelled as exact rationals;
  the literal probability entries of the source are decimal literals and are
  embedded as the corresponding rationals.
* Randomness is passed explicitly: each `random.*` draw becomes a parameter
  (`Fin`-typed for `randint`/`choice`, `ℚ` for `random.random()`).
* `hashlib.md5` (used only by `hash_bank_name`) is an external library
  primitive; the 32-bit hash-prefix value is an uninterpreted parameter
  `md5_32 : String → Nat`, the surrounding arithmetic of `hash_bank_name`
  is embedded faithfully.
* `datetime.now() + timedelta(days=d)` is modelled by an uninterpreted
  calendar parameter `yearAfterDays : Nat → Nat` giving the `.year` of the
  current instant shifted by `d` days.
-/

namespace CardGen

/-! ## LuhnValidator -/

/-- The doubling rule applied to one digit: `n *= 2; if n > 9: n -= 9`. -/
def luhn_adjust (n : Nat) : Nat :=
  let m := n * 2
  if m > 9 then m - 9 else m

/-- The running total of the Luhn loop over the reversed digit string, with
`should_double` telling whether the current (first) digit gets doubled. -/
def luhn_total : Bool → List Nat → Nat
  | _, [] => 0
  | should_double, d :: rest =>
      (if should_double then luhn_adjust d else d) + luhn_total (!should_double) rest

/-- Source `LuhnValidator.calculate_check_digit`: traverse `reversed(card_number)`
starting with `should_double = True`, return `(10 - total % 10) % 10`. -/
def calculate_check_digit (card_number : List Nat) : Nat :=
  (10 - luhn_total true card_number.reverse % 10) % 10

/-- Source `LuhnValidator.validate`: traverse `reversed(card_number)` starting with
`should_double = False`, accept iff `total % 10 == 0`. -/
def validate (card_number : List Nat) : Bool :=
  luhn_total false card_number.reverse % 10 == 0

/-- Appending the computed check digit always yields a Luhn-valid number:
the two opposite starting parities make the two traversals agree on every
digit of the payload, and the check digit cancels the total mod 10. -/
theorem validate_append_check (s : List Nat) :
    validate (s ++ [calculate_check_digit s]) = true := by
  have hrev : (s ++ [calculate_check_digit s]).reverse
      = calculate_check_digit s :: s.reverse := by simp
  have hstep : luhn_total false (calculate_check_digit s :: s.reverse)
      = calculate_check_digit s + luhn_total true s.reverse := by
    simp [luhn_total]
  unfold validate
  rw [hrev, hstep]
  unfold calculate_check_digit
  have h : luhn_total true s.reverse % 10 < 10 := Nat.mod_lt _ (by omega)
  simp only [beq_iff_eq]
  omega

/-! ## MarkovChainGenerator -/

/-- Source `MarkovChainGenerator.TRANSITION_MATRIX`: the fixed transition table,
keyed by the previous digit 0–9.  The Python dict raises `KeyError` outside
0–9; the model returns an empty row there (that domain is never reached on
digit inputs). -/
def TRANSITION_MATRIX : Nat → List ℚ
  | 0 => [0.08, 0.11, 0.12, 0.10, 0.09, 0.11, 0.08, 0.10, 0.11, 0.10]
  | 1 => [0.10, 0.08, 0.11, 0.12, 0.09, 0.10, 0.11, 0.09, 0.10, 0.10]
  | 2 => [0.11, 0.10, 0.08, 0.11, 0.12, 0.09, 0.10, 0.11, 0.09, 0.09]
  | 3 => [0.09, 0.11, 0.10, 0.08, 0.11, 0.12, 0.09, 0.10, 0.11, 0.09]
  | 4 => [0.10, 0.09, 0.11, 0.10, 0.08, 0.11, 0.12, 0.09, 0.10, 0.10]
  | 5 => [0.11, 0.10, 0.09, 0.11, 0.10, 0.08, 0.11, 0.12, 0.09, 0.09]
  | 6 => [0.09, 0.11, 0.10, 0.09, 0.11, 0.10, 0.08, 0.11, 0.12, 0.09]
  | 7 => [0.10, 0.09, 0.11, 0.10, 0.09, 0.11, 0.10, 0.08, 0.11, 0.11]
  | 8 => [0.11, 0.10, 0.09, 0.11, 0.10, 0.09, 0.11, 0.10, 0.08, 0.11]
  | 9 => [0.10, 0.11, 0.10, 0.09, 0.11, 0.10, 0.09, 0.11, 0.10, 0.09]
  | _ => []

/-- The selection loop of `get_next_digit`: walk the row keeping the running
`cumulative` sum and the current column index; return the first column with
`rand < cumulative`, and `0` if the loop finishes without returning. -/
def pickColumn (rand : ℚ) : List ℚ → ℚ → Nat → Nat
  | [], _, _ => 0
  | p :: ps, cumulative, idx =>
      if rand < cumulative + p then idx else pickColumn rand ps (cumulative + p) (idx + 1)

/-- Source `MarkovChainGenerator.get_next_digit`.  The `random.randint(0, 9)` draw of
the empty-segment branch is the `uniform` parameter; the `random.random()`
draw of the matrix branch is the `rand` parameter. -/
def get_next_digit (uniform : Fin 10) (rand : ℚ) (previous_segment : List Nat) : Nat :=
  match previous_segment.getLast? with
  | none => uniform.val
  | some last_digit => pickColumn rand (TRANSITION_MATRIX last_digit) 0 0

/-! ## BINDatabase -/

/-- One BIN-table entry / brand profile, as consumed by `generate_card`.
`countryName` is optional because the rule-based fallback dicts omit the key
and `generate_card` reads it with `.get('countryName', 'United States')`. -/
structure BrandProfile where
  brand : String
  length : Nat
  cvvLength : Nat
  bank : String
  country : String
  countryName : Option String := none
deriving DecidableEq

/-- The `{'brand': 'Visa', ...}` fallback dict of `_detect_by_rules`. -/
def visaProfile : BrandProfile :=
  { brand := "Visa", length := 16, cvvLength := 3, bank := "Unknown", country := "US" }

/-- The `{'brand': 'Mastercard', ...}` fallback dict of `_detect_by_rules`. -/
def mastercardProfile : BrandProfile :=
  { brand := "Mastercard", length := 16, cvvLength := 3, bank := "Unknown", country := "US" }

/-- The `{'brand': 'American Express', ...}` fallback dict of `_detect_by_rules`. -/
def amexProfile : BrandProfile :=
  { brand := "American Express", length := 15, cvvLength := 4, bank := "Unknown", country := "US" }

/-- The `{'brand': 'Unknown', ...}` fallback dict of `_detect_by_rules`. -/
def unknownProfile : BrandProfile :=
  { brand := "Unknown", length := 16, cvvLength := 3, bank := "Unknown", country := "US" }

/-- Python `str.startswith` as a character-level test.  (Lean's own
`String.startsWith` is byte-position based and not kernel-reducible, so the
model tests the character lists directly; the two agree on all strings.) -/
def startswith (s pre : String) : Bool :=
  pre.data.isPrefixOf s.data

/-- Source `BINDatabase._detect_by_rules` over Python strings. -/
def detect_by_rules (bin_code : String) : BrandProfile :=
  if startswith bin_code "4" then visaProfile
  else if startswith bin_code "5" then mastercardProfile
  else if startswith bin_code "34" || startswith bin_code "37" then amexProfile
  else unknownProfile

/-- Source `BINDatabase.detect_card_brand` over Python strings; the loaded dict is
the lookup function `db`. -/
def detect_card_brand (db : String → Option BrandProfile) (bin_code : String) : BrandProfile :=
  match db bin_code with
  | some p => p
  | none =>
    match db (bin_code.take 4) with
    | some p => p
    | none =>
      match db (bin_code.take 2) with
      | some p => p
      | none =>
        match db (bin_code.take 1) with
        | some p => p
        | none => detect_by_rules bin_code

/-- Source `BINDatabase._detect_by_rules` restricted to all-digit inputs, over digit
lists (`startswith('4')` becomes "first digit is 4", etc.). -/
def detect_by_rules_digits (bin_code : List Nat) : BrandProfile :=
  if bin_code.take 1 = [4] then visaProfile
  else if bin_code.take 1 = [5] then mastercardProfile
  else if bin_code.take 2 = [3, 4] || bin_code.take 2 = [3, 7] then amexProfile
  else unknownProfile

/-- Source `BINDatabase.detect_card_brand` restricted to all-digit inputs, over digit
lists; this is the copy composed into the arithmetic generation pipeline. -/
def detect_card_brand_digits (db : List Nat → Option BrandProfile) (bin_code : List Nat) :
    BrandProfile :=
  match db bin_code with
  | some p => p
  | none =>
    match db (bin_code.take 4) with
    | some p => p
    | none =>
      match db (bin_code.take 2) with
      | some p => p
      | none =>
        match db (bin_code.take 1) with
        | some p => p
        | none => detect_by_rules_digits bin_code

/-! ## CardGenerator -/

/-- Value of an all-digit string, most significant digit first
(models `int(s)`; `int('')` raises in Python, the model returns 0 there —
that branch is never exercised by the claims). -/
def natOfDigits (l : List Nat) : Nat :=
  l.foldl (fun acc d => acc * 10 + d) 0

/-- Source `CardGenerator.hash_bank_name`.  The MD5 hash-prefix value
`int(md5(name).hexdigest()[:8], 16)` is the uninterpreted parameter
`md5_32`; the guard and the `% 100` are the source's arithmetic. -/
def hash_bank_name (md5_32 : String → Nat) (bank_name : String) : Nat :=
  if bank_name = "" ∨ bank_name = "Unknown" then 0
  else md5_32 bank_name % 100

/-- The middle-digit loop of `generate_account_segment`: `k` remaining
iterations, `i` the index of the next `random.random()` draw in the stream
`markov`; each new digit is appended to the growing segment before the next
draw, exactly as in the source. -/
def markovExtend (uniform : Fin 10) (markov : Nat → ℚ) : Nat → Nat → List Nat → List Nat
  | 0, _, segment => segment
  | k + 1, i, segment =>
      markovExtend uniform markov k (i + 1)
        (segment ++ [get_next_digit uniform (markov i) segment])

/-- Source `CardGenerator.generate_account_segment`.  Here `length` is a Python `int`
and may be negative (then `range(length - 4)` is empty, which `Int.toNat`
reproduces).  `seqDraw` models `random.randint(10, 99)` as `10 + Fin 90`.
The `uniform` draw of `get_next_digit` is never consulted here because the
segment already holds the two branch-code digits. -/
def generate_account_segment (md5_32 : String → Nat) (markov : Nat → ℚ) (uniform : Fin 10)
    (seqDraw : Fin 90) (length : Int) (bin_code : List Nat) (bank_name : String) : List Nat :=
  let bank_seed := hash_bank_name md5_32 bank_name
  let bin_last_4 := if 4 ≤ bin_code.length then bin_code.drop (bin_code.length - 4) else bin_code
  let branch_code := (natOfDigits bin_last_4 + bank_seed) % 100
  let segment := [branch_code / 10, branch_code % 10]
  let segment := markovExtend uniform markov (length - 4).toNat 0 segment
  let sequence := 10 + seqDraw.val
  segment ++ [sequence / 10, sequence % 10]

/-- The `year_weights` table of `generate_expiry_date`. -/
def year_weights : List (Nat × ℚ) :=
  [(2, 0.15), (3, 0.40), (4, 0.25), (5, 0.15), (6, 0.05)]

/-- The year-offset selection loop of `generate_expiry_date`: first entry
whose cumulative weight exceeds the draw; the preset `years_to_add = 3`
survives when no entry fires. -/
def pickYears (rand : ℚ) : List (Nat × ℚ) → ℚ → Nat
  | [], _ => 3
  | (years, weight) :: rest, cumulative =>
      if rand < cumulative + weight then years else pickYears rand rest (cumulative + weight)

/-- The `common_months` table of `generate_expiry_date`. -/
def common_months : List Nat := [3, 5, 6, 9, 11, 12]

/-- The random draws consumed by `generate_expiry_date`: the year-offset
`random.random()`, the 80%-split `random.random()`, the `random.choice`
index into `common_months`, and the `random.randint(1, 12)` month
(modelled as `1 + Fin 12`). -/
structure ExpiryDraws where
  yearRand : ℚ
  monthSplit : ℚ
  commonIdx : Fin 6
  anyMonth : Fin 12

/-- Source `CardGenerator.generate_expiry_date`, returning the `(month, year % 100)`
pair rendered into `"MM/YY"` by `expiryString`.  `yearAfterDays d` models
`(datetime.now() + timedelta(days=d)).year`. -/
def generate_expiry_date (yearAfterDays : Nat → Nat) (d : ExpiryDraws) : Nat × Nat :=
  let years_to_add := pickYears d.yearRand year_weights 0
  let month :=
    if d.monthSplit < 0.8 then common_months.getD d.commonIdx.val 0
    else 1 + d.anyMonth.val
  (month, yearAfterDays (365 * years_to_add) % 100)

/-- Zero-padded two-digit rendering, `f"{n:02d}"` (for the `n < 100` values
that actually occur). -/
def pad2 (n : Nat) : String :=
  if n < 10 then "0" ++ Nat.repr n else Nat.repr n

/-- The `f"{month:02d}/{year % 100:02d}"` expiry string. -/
def expiryString (month yearTwo : Nat) : String :=
  pad2 month ++ "/" ++ pad2 yearTwo

/-- The `weak_patterns` list of `generate_cvv`, as 3-character strings. -/
def weak_patterns : List (List Char) :=
  ["111".data, "222".data, "333".data, "444".data, "555".data,
   "666".data, "777".data, "888".data, "999".data, "000".data]

/-- The first CVV mapping of `generate_cvv`:
`pseudo_random % 9000 + 1000` for 4-digit, `% 900 + 100` otherwise. -/
def cvv_first (pseudo_random : Nat) (cvv_length : Nat) : Nat :=
  if cvv_length = 4 then pseudo_random % 9000 + 1000 else pseudo_random % 900 + 100

/-- The offset remapping of `generate_cvv` taken on a weak pattern
(`offset = 1234` for 4-digit, `123` otherwise). -/
def cvv_offset (pseudo_random : Nat) (cvv_length : Nat) : Nat :=
  if cvv_length = 4 then (pseudo_random + 1234) % 9000 + 1000
  else (pseudo_random + 123) % 900 + 100

/-- The test `cvv[:3] in weak_patterns` on the decimal rendering of the value. -/
def weakFirst3 (v : Nat) : Prop :=
  (Nat.repr v).data.take 3 ∈ weak_patterns

instance (v : Nat) : Decidable (weakFirst3 v) := by
  unfold weakFirst3; infer_instance

/-- The linear-congruential step of `generate_cvv` applied to
`seed = int(card_number[-4:]) + int(expiry_date.replace('/', ''))`. -/
def cvv_pseudo_random (card_number : List Nat) (expiry_num : Nat) : Nat :=
  let seed := natOfDigits (card_number.drop (card_number.length - 4)) + expiry_num
  (seed * 9301 + 49297) % 233280

/-- The numeric CVV value produced by `CardGenerator.generate_cvv` before the
final `cvv[:cvv_length]` slice: first mapping, remapped once with the fixed
offset when the first three rendered digits form a weak pattern. -/
def cvvValue (card_number : List Nat) (expiry_num : Nat) (cvv_length : Nat) : Nat :=
  let pseudo_random := cvv_pseudo_random card_number expiry_num
  let cvv := cvv_first pseudo_random cvv_length
  if weakFirst3 cvv then cvv_offset pseudo_random cvv_length else cvv

/-- Source `CardGenerator.generate_cvv`: the returned character string
`cvv[:cvv_length]`.  `expiry_num` is `int(expiry_date.replace('/', ''))`,
i.e. `month * 100 + yearTwo` for an `"MM/YY"` expiry. -/
def generate_cvv (card_number : List Nat) (expiry_num : Nat) (cvv_length : Nat) : List Char :=
  (Nat.repr (cvvValue card_number expiry_num cvv_length)).data.take cvv_length

/-- The random draws consumed by one `generate_card` call. -/
structure CardDraws where
  markov : Nat → ℚ
  markovUniform : Fin 10
  seqDraw : Fin 90
  expiry : ExpiryDraws

/-- The `CardRecord` dict returned by `generate_card` (`formatted` keeps the
space-separated groups of the f-string as a list of digit groups). -/
structure CardRecord where
  cardNumber : List Nat
  cardNumberFormatted : List (List Nat)
  expiryDate : String
  cvv : List Char
  brand : String
  bank : String
  country : String
  countryName : String

/-- The account segment as composed by `generate_card` (lines 245–251 of the
source): resolved length `card_length - len(bin_code) - 1`, resolved bank. -/
def account_segment_of (db : List Nat → Option BrandProfile) (md5_32 : String → Nat)
    (dr : CardDraws) (bin_code : List Nat) : List Nat :=
  generate_account_segment md5_32 dr.markov dr.markovUniform dr.seqDraw
    (((detect_card_brand_digits db bin_code).length : Int) - bin_code.length - 1)
    bin_code (detect_card_brand_digits db bin_code).bank

/-- The straight-line body of `CardGenerator.generate_card` (everything except
the Luhn self-check): resolve the profile, build the account segment, append
the check digit, derive expiry/CVV/formatting, assemble the record.  Slices
of the f-string formatting are `take`/`drop` pairs
(`s[4:10] = (s.drop 4).take 6`, etc.). -/
def generate_card_record (db : List Nat → Option BrandProfile) (md5_32 : String → Nat)
    (yearAfterDays : Nat → Nat) (dr : CardDraws) (bin_code : List Nat) : CardRecord :=
  let brand_info := detect_card_brand_digits db bin_code
  let card_length := brand_info.length
  let cvv_length := brand_info.cvvLength
  let bank_name := brand_info.bank
  let account_segment := account_segment_of db md5_32 dr bin_code
  let card_without_check := bin_code ++ account_segment
  let check_digit := calculate_check_digit card_without_check
  let full_card_number := card_without_check ++ [check_digit]
  let monthYear := generate_expiry_date yearAfterDays dr.expiry
  let expiry_num := monthYear.1 * 100 + monthYear.2
  let cvv := generate_cvv full_card_number expiry_num cvv_length
  let formatted :=
    if card_length = 15 then
      [full_card_number.take 4, (full_card_number.drop 4).take 6, full_card_number.drop 10]
    else
      [full_card_number.take 4, (full_card_number.drop 4).take 4,
       (full_card_number.drop 8).take 4, full_card_number.drop 12]
  { cardNumber := full_card_number
    cardNumberFormatted := formatted
    expiryDate := expiryString monthYear.1 monthYear.2
    cvv := cvv
    brand := brand_info.brand
    bank := bank_name
    country := brand_info.country
    countryName := brand_info.countryName.getD "United States" }

/-- Source `CardGenerator.generate_card`: the record body guarded by the Luhn
self-check.  `none` models the discard-and-restart branch (the recursive
retry), so that branch is taken iff the result is `none`. -/
def generate_card (db : List Nat → Option BrandProfile) (md5_32 : String → Nat)
    (yearAfterDays : Nat → Nat) (dr : CardDraws) (bin_code : List Nat) : Option CardRecord :=
  let record := generate_card_record db md5_32 yearAfterDays dr bin_code
  if validate record.cardNumber then some record else none

/-! ## Decimal-rendering bridge

The CVV code of the source inspects `str(value)`; `Nat.repr` plays that
role in the model.  The following lemmas reduce `Nat.repr` on the value
ranges that occur to explicit digit arithmetic. -/

theorem toDigitsCore_append (f : Nat) : ∀ (n : Nat) (ds : List Char),
    Nat.toDigitsCore 10 f n ds = Nat.toDigitsCore 10 f n [] ++ ds := by
  induction f with
  | zero => intro n ds; simp [Nat.toDigitsCore]
  | succ f ih =>
    intro n ds
    simp only [Nat.toDigitsCore]
    by_cases h : n / 10 = 0
    · simp [h]
    · rw [if_neg h, if_neg h, ih (n / 10) (Nat.digitChar (n % 10) :: ds),
        ih (n / 10) (Nat.digitChar (n % 10) :: [])]
      simp

theorem toDigitsCore_fuel (f₁ : Nat) : ∀ (f₂ n : Nat) (ds : List Char),
    n < f₁ → n < f₂ → Nat.toDigitsCore 10 f₁ n ds = Nat.toDigitsCore 10 f₂ n ds := by
  induction f₁ with
  | zero => intro f₂ n ds h₁ _; exact absurd h₁ (Nat.not_lt_zero n)
  | succ f ih =>
    intro f₂ n ds h₁ h₂
    cases f₂ with
    | zero => exact absurd h₂ (Nat.not_lt_zero n)
    | succ g =>
      simp only [Nat.toDigitsCore]
      by_cases h : n / 10 = 0
      · simp [h]
      · rw [if_neg h, if_neg h]
        exact ih g (n / 10) _ (by omega) (by omega)

/-- The decimal-rendering recurrence: the representation of `n` is that of
`n / 10` followed by the character of the last digit. -/
theorem repr_data_rec (n : Nat) :
    (Nat.repr n).data =
      if n < 10 then [Nat.digitChar n]
      else (Nat.repr (n / 10)).data ++ [Nat.digitChar (n % 10)] := by
  show (Nat.toDigits 10 n).asString.data = _
  simp only [Nat.toDigits, List.asString]
  show Nat.toDigitsCore 10 (n + 1) n [] = _
  by_cases h : n < 10
  · have h0 : n / 10 = 0 := by omega
    have hn : n % 10 = n := by omega
    simp [Nat.toDigitsCore, h0, hn, h]
  · have h0 : ¬ n / 10 = 0 := by omega
    simp only [Nat.toDigitsCore, if_neg h0, if_neg h]
    rw [toDigitsCore_append, toDigitsCore_fuel n (n / 10 + 1) (n / 10) [] (by omega) (by omega)]
    rfl

/-- Rendering `str(v)` for a three-digit value. -/
theorem repr_data_three (v : Nat) (h1 : 100 ≤ v) (h2 : v < 1000) :
    (Nat.repr v).data =
      [Nat.digitChar (v / 100), Nat.digitChar (v / 10 % 10), Nat.digitChar (v % 10)] := by
  have e1 : v / 10 / 10 = v / 100 := by omega
  rw [repr_data_rec v, if_neg (by omega), repr_data_rec (v / 10), if_neg (by omega),
    repr_data_rec (v / 10 / 10), if_pos (by omega), e1]
  simp

/-- Rendering `str(v)` for a four-digit value. -/
theorem repr_data_four (v : Nat) (h1 : 1000 ≤ v) (h2 : v < 10000) :
    (Nat.repr v).data =
      [Nat.digitChar (v / 1000), Nat.digitChar (v / 100 % 10),
       Nat.digitChar (v / 10 % 10), Nat.digitChar (v % 10)] := by
  have e1 : v / 10 / 100 = v / 1000 := by omega
  have e2 : v / 10 / 10 % 10 = v / 100 % 10 := by omega
  rw [repr_data_rec v, if_neg (by omega),
    repr_data_three (v / 10) (by omega) (by omega), e1, e2]
  simp

theorem digitChar_triple_weak : ∀ x y z : Fin 10,
    ([Nat.digitChar x.val, Nat.digitChar y.val, Nat.digitChar z.val] ∈ weak_patterns)
      ↔ (x.val = y.val ∧ y.val = z.val) := by decide

/-- On three-digit values the weak-pattern test is "all three digits equal". -/
theorem weakFirst3_three (v : Nat) (h1 : 100 ≤ v) (h2 : v < 1000) :
    weakFirst3 v ↔ (v / 100 = v / 10 % 10 ∧ v / 10 % 10 = v % 10) := by
  unfold weakFirst3
  rw [repr_data_three v h1 h2]
  have h := digitChar_triple_weak ⟨v / 100, by omega⟩ ⟨v / 10 % 10, by omega⟩ ⟨v % 10, by omega⟩
  simpa using h

/-- On four-digit values the weak-pattern test is "the three leading digits
are equal". -/
theorem weakFirst3_four (v : Nat) (h1 : 1000 ≤ v) (h2 : v < 10000) :
    weakFirst3 v ↔ (v / 1000 = v / 100 % 10 ∧ v / 100 % 10 = v / 10 % 10) := by
  unfold weakFirst3
  rw [repr_data_four v h1 h2]
  have h := digitChar_triple_weak ⟨v / 1000, by omega⟩ ⟨v / 100 % 10, by omega⟩
    ⟨v / 10 % 10, by omega⟩
  simpa using h

/-! ## Structural helper lemmas -/

theorem markovExtend_length (uniform : Fin 10) (markov : Nat → ℚ) (k : Nat) :
    ∀ (i : Nat) (segment : List Nat),
      (markovExtend uniform markov k i segment).length = segment.length + k := by
  induction k with
  | zero => intro i segment; rfl
  | succ k ih =>
    intro i segment
    show (markovExtend uniform markov k (i + 1) _).length = _
    rw [ih]
    simp
    omega

theorem generate_account_segment_length (md5_32 : String → Nat) (markov : Nat → ℚ)
    (uniform : Fin 10) (seqDraw : Fin 90) (length : Int) (bin_code : List Nat)
    (bank_name : String) :
    (generate_account_segment md5_32 markov uniform seqDraw length bin_code bank_name).length
      = 2 + (length - 4).toNat + 2 := by
  unfold generate_account_segment
  simp [markovExtend_length]

/-- The selection loop returns the default `0` or a column index below
`idx + row.length`. -/
theorem pickColumn_bound (rand : ℚ) (row : List ℚ) :
    ∀ (cumulative : ℚ) (idx : Nat),
      pickColumn rand row cumulative idx = 0 ∨
        pickColumn rand row cumulative idx < idx + row.length := by
  induction row with
  | nil => intro c i; left; rfl
  | cons p ps ih =>
    intro c i
    have hdef : pickColumn rand (p :: ps) c i
        = if rand < c + p then i else pickColumn rand ps (c + p) (i + 1) := rfl
    rw [hdef]
    by_cases h : rand < c + p
    · rw [if_pos h]; right; simp only [List.length_cons]; omega
    · rw [if_neg h]
      rcases ih (c + p) (i + 1) with h0 | hlt
      · left; exact h0
      · right; simp only [List.length_cons]; omega

theorem TRANSITION_MATRIX_length (d : Nat) : (TRANSITION_MATRIX d).length ≤ 10 := by
  rcases d with _|_|_|_|_|_|_|_|_|_|d <;> simp [TRANSITION_MATRIX]

/-- The sampled digit of `get_next_digit` always lands in `[0, 9]`. -/
theorem get_next_digit_le (uniform : Fin 10) (rand : ℚ) (previous_segment : List Nat) :
    get_next_digit uniform rand previous_segment ≤ 9 := by
  unfold get_next_digit
  cases hl : previous_segment.getLast? with
  | none => exact Nat.lt_succ_iff.mp uniform.isLt
  | some d =>
    show pickColumn rand (TRANSITION_MATRIX d) 0 0 ≤ 9
    rcases pickColumn_bound rand (TRANSITION_MATRIX d) 0 0 with h0 | hlt
    · rw [h0]; omega
    · have := TRANSITION_MATRIX_length d
      omega

/-- The Luhn self-check of `generate_card` always passes, so the record body
is always returned. -/
theorem generate_card_never_retries (db : List Nat → Option BrandProfile)
    (md5_32 : String → Nat) (yearAfterDays : Nat → Nat) (dr : CardDraws)
    (bin_code : List Nat) :
    generate_card db md5_32 yearAfterDays dr bin_code
      = some (generate_card_record db md5_32 yearAfterDays dr bin_code) := by
  show (if validate (generate_card_record db md5_32 yearAfterDays dr bin_code).cardNumber
      then some (generate_card_record db md5_32 yearAfterDays dr bin_code) else none)
    = some (generate_card_record db md5_32 yearAfterDays dr bin_code)
  have hnum : (generate_card_record db md5_32 yearAfterDays dr bin_code).cardNumber
      = (bin_code ++ account_segment_of db md5_32 dr bin_code)
        ++ [calculate_check_digit (bin_code ++ account_segment_of db md5_32 dr bin_code)] := rfl
  rw [hnum, validate_append_check]
  rfl

/-- Digit-count of the full card number in terms of the resolved profile
length `L` and the BIN length `b`: `b + ((L - b - 1 - 4).toNat + 4) + 1`. -/
theorem generate_card_record_number_length (db : List Nat → Option BrandProfile)
    (md5_32 : String → Nat) (yearAfterDays : Nat → Nat) (dr : CardDraws)
    (bin_code : List Nat) :
    (generate_card_record db md5_32 yearAfterDays dr bin_code).cardNumber.length
      = bin_code.length
        + (2 + ((((detect_card_brand_digits db bin_code).length : Int)
                  - bin_code.length - 1 - 4).toNat) + 2) + 1 := by
  have hnum : (generate_card_record db md5_32 yearAfterDays dr bin_code).cardNumber
      = (bin_code ++ account_segment_of db md5_32 dr bin_code)
        ++ [calculate_check_digit (bin_code ++ account_segment_of db md5_32 dr bin_code)] := rfl
  rw [hnum]
  simp [account_segment_of, generate_account_segment_length]
  omega

/-! ## Concrete evaluation environments (for counterexamples and witnesses) -/

/-- Empty BIN table over digit lists (the load-failure fallback `{}`). -/
def emptyDB : List Nat → Option BrandProfile := fun _ => none

/-- Empty BIN table over strings. -/
def emptyDBStr : String → Option BrandProfile := fun _ => none

/-- A two-entry BIN table with overlapping 6-digit and 2-digit prefixes
carrying different metadata. -/
def overlapDB : String → Option BrandProfile := fun s =>
  if s = "453211" then
    some { brand := "SixDigit", length := 16, cvvLength := 3, bank := "BankSix", country := "DK" }
  else if s = "45" then
    some { brand := "TwoDigit", length := 16, cvvLength := 3, bank := "BankTwo", country := "SE" }
  else none

/-- Constant MD5 stub (never consulted when the bank is `Unknown`). -/
def zeroMd5 : String → Nat := fun _ => 0

/-- Constant calendar: every shifted date falls in year 2026. -/
def year2026 : Nat → Nat := fun _ => 2026

/-- All random draws pinned to their least value. -/
def zeroDraws : CardDraws :=
  { markov := fun _ => 0
    markovUniform := 0
    seqDraw := 0
    expiry := { yearRand := 0, monthSplit := 0, commonIdx := 0, anyMonth := 0 } }

/-! ## Claims -/

/-- C1: for every digit string `s`, appending
`LuhnValidator.calculate_check_digit(s)` yields a number accepted by
`LuhnValidator.validate` (the two traversals use opposite doubling
parities); consequently every number built by `generate_card` passes the
self-check, so the discard-and-restart branch is never taken. -/
theorem luhn_roundtrip_and_no_retry :
    (∀ s : List Nat, validate (s ++ [calculate_check_digit s]) = true) ∧
    (∀ (db : List Nat → Option BrandProfile) (md5_32 : String → Nat)
        (yearAfterDays : Nat → Nat) (dr : CardDraws) (bin_code : List Nat),
      (generate_card db md5_32 yearAfterDays dr bin_code).isSome = true) :=
  ⟨validate_append_check, fun db md5_32 yearAfterDays dr bin_code => by
    rw [generate_card_never_retries db md5_32 yearAfterDays dr bin_code]; rfl⟩

/-- C2 counterexample: the claim quantifies over *every* binCode, but for the
12-digit all-digit BIN `444444444444` — rule-resolved to Visa with profile
length 16 — the generated number has 17 digits, not 16: the middle-digit
loop `range(length - 4)` is empty once the account length drops below 4
while the branch-code and sequence digits are still emitted. -/
theorem generate_card_long_bin_cex :
    (detect_card_brand_digits emptyDB [4, 4, 4, 4, 4, 4, 4, 4, 4, 4, 4, 4]).length = 16 ∧
    (generate_card emptyDB zeroMd5 year2026 zeroDraws
        [4, 4, 4, 4, 4, 4, 4, 4, 4, 4, 4, 4]).map (fun r => r.cardNumber.length)
      = some 17 := by
  exact ⟨by decide, by decide⟩

/-- C2 (amended): for every binCode whose length is at most the resolved
profile length minus 5 (so the account-segment length is at least 4 —
forced by the counterexample at shorter gaps), the card number returned by
`generate_card` is `binCode ++ accountSegment ++ checkDigit` with the
account segment of length `profile.length - len(binCode) - 1`, so the full
number has exactly `profile.length` digits and starts with `binCode`. -/
theorem generate_card_number_composition (db : List Nat → Option BrandProfile)
    (md5_32 : String → Nat) (yearAfterDays : Nat → Nat) (dr : CardDraws)
    (bin_code : List Nat)
    (h : bin_code.length + 5 ≤ (detect_card_brand_digits db bin_code).length) :
    ∃ r, generate_card db md5_32 yearAfterDays dr bin_code = some r ∧
      r.cardNumber = bin_code ++ account_segment_of db md5_32 dr bin_code
        ++ [calculate_check_digit (bin_code ++ account_segment_of db md5_32 dr bin_code)] ∧
      (account_segment_of db md5_32 dr bin_code).length
        = (detect_card_brand_digits db bin_code).length - bin_code.length - 1 ∧
      r.cardNumber.length = (detect_card_brand_digits db bin_code).length := by
  refine ⟨generate_card_record db md5_32 yearAfterDays dr bin_code,
    generate_card_never_retries db md5_32 yearAfterDays dr bin_code, rfl, ?_, ?_⟩
  · unfold account_segment_of
    rw [generate_account_segment_length]
    omega
  · rw [generate_card_record_number_length]
    omega

/-- C2 witness: the default Mastercard-resolved 6-digit BIN `532959`. -/
theorem generate_card_number_composition_witness :
    ([5, 3, 2, 9, 5, 9] : List Nat).length + 5
        ≤ (detect_card_brand_digits emptyDB [5, 3, 2, 9, 5, 9]).length ∧
    ∃ r, generate_card emptyDB zeroMd5 year2026 zeroDraws [5, 3, 2, 9, 5, 9] = some r ∧
      r.cardNumber = [5, 3, 2, 9, 5, 9]
          ++ account_segment_of emptyDB zeroMd5 zeroDraws [5, 3, 2, 9, 5, 9]
        ++ [calculate_check_digit ([5, 3, 2, 9, 5, 9]
          ++ account_segment_of emptyDB zeroMd5 zeroDraws [5, 3, 2, 9, 5, 9])] ∧
      (account_segment_of emptyDB zeroMd5 zeroDraws [5, 3, 2, 9, 5, 9]).length
        = (detect_card_brand_digits emptyDB [5, 3, 2, 9, 5, 9]).length
            - ([5, 3, 2, 9, 5, 9] : List Nat).length - 1 ∧
      r.cardNumber.length = (detect_card_brand_digits emptyDB [5, 3, 2, 9, 5, 9]).length :=
  ⟨by decide,
   generate_card_number_composition emptyDB zeroMd5 year2026 zeroDraws
     [5, 3, 2, 9, 5, 9] (by decide)⟩

/-- Modelled from the spec: §4.3 `resolve` — "attempt exact match on the full
code, then on its first 4 characters, then first 2, then first 1; first hit
wins", falling back to the rule table Visa/16/3 for prefix 4, Mastercard/16/3
for prefix 5, American Express/15/4 for prefix 34 or 37, Unknown/16/3
otherwise.  Spec-side definition, used only for comparison against the
source-side `detect_card_brand`. -/
def resolveSpec (db : String → Option BrandProfile) (binCode : String) : BrandProfile :=
  match [binCode, binCode.take 4, binCode.take 2, binCode.take 1].findSome? db with
  | some p => p
  | none =>
      if startswith binCode "4" then visaProfile
      else if startswith binCode "5" then mastercardProfile
      else if startswith binCode "34" || startswith binCode "37" then amexProfile
      else unknownProfile

/-- C3: `detect_card_brand` implements exactly the spec's
progressively-widening prefix resolution (full code, then 4, 2, 1 characters,
first hit wins, rule fallback with the stated profiles); in particular an
entry at the full BIN length always wins over any shorter-prefix entry. -/
theorem detect_card_brand_resolution (db : String → Option BrandProfile) (bin_code : String) :
    detect_card_brand db bin_code = resolveSpec db bin_code ∧
    (∀ p, db bin_code = some p → detect_card_brand db bin_code = p) := by
  constructor
  · rcases h1 : db bin_code with _ | p1 <;>
      rcases h2 : db (bin_code.take 4) with _ | p2 <;>
      rcases h3 : db (bin_code.take 2) with _ | p3 <;>
      rcases h4 : db (bin_code.take 1) with _ | p4 <;>
      simp [detect_card_brand, resolveSpec, detect_by_rules, h1, h2, h3, h4]
  · intro p hp
    simp [detect_card_brand, hp]

/-- C3 witness: with overlapping 6-digit and 2-digit entries carrying
different metadata, the full-length entry wins. -/
theorem detect_card_brand_resolution_witness :
    detect_card_brand overlapDB "453211"
      = { brand := "SixDigit", length := 16, cvvLength := 3,
          bank := "BankSix", country := "DK" } :=
  (detect_card_brand_resolution overlapDB "453211").2
    { brand := "SixDigit", length := 16, cvvLength := 3, bank := "BankSix", country := "DK" }
    (by decide)

/-- A three-digit value whose digits are all equal is a multiple of 111. -/
theorem weak_all_eq_three (v : Nat) (_h1 : 100 ≤ v) (_h2 : v < 1000)
    (hw : v / 100 = v / 10 % 10 ∧ v / 10 % 10 = v % 10) : v = 111 * (v / 100) := by
  omega

/-- A four-digit value whose three leading digits are all equal has
`v / 10` a multiple of 111. -/
theorem weak_u_decomp (v : Nat) (h1 : 1000 ≤ v) (h2 : v < 10000)
    (hw : v / 1000 = v / 100 % 10 ∧ v / 100 % 10 = v / 10 % 10) :
    v / 10 = 111 * (v / 10 / 100) := by
  have b1 : v / 1000 = v / 10 / 100 := by clear hw; omega
  have b2 : v / 100 % 10 = v / 10 / 10 % 10 := by clear hw; omega
  apply weak_all_eq_three (v / 10) (by omega) (by omega)
  constructor
  · rw [← b1, ← b2]; exact hw.1
  · rw [← b2]; exact hw.2

/-- C4 counterexample: for a card ending in `0231` with expiry `01/00`
(seed 331), the LCG value 95288 maps to the weak initial CVV `888`, and the
single fixed-offset recomputation yields `111` — whose first three digits
are again in the weak-pattern set, contradicting the claim. -/
theorem generate_cvv_weak_repeat_cex :
    weakFirst3 (cvv_first (cvv_pseudo_random [0, 2, 3, 1] 100) 3) ∧
    cvvValue [0, 2, 3, 1] 100 3 = 111 ∧
    weakFirst3 (cvvValue [0, 2, 3, 1] 100 3) ∧
    generate_cvv [0, 2, 3, 1] 100 3 = ['1', '1', '1'] :=
  ⟨by decide, by decide, by decide, by decide⟩

/-- C4 (amended): when the initial mapping lands on a weak pattern, the
once-recomputed CVV avoids the weak-pattern set *except* at the residues
the counterexample exposes: `pseudo_random % 900 ∈ {788, 899}` for 3-digit
CVVs (initial `888` or `999`, recomputed `111` or `222`) and
`pseudo_random % 9000 ∈ [7880, 7885] ∪ [8990, 8995]` for 4-digit CVVs. -/
theorem generate_cvv_weak_avoidance (card_number : List Nat) (expiry_num : Nat)
    (cvv_length : Nat) (hlen : cvv_length = 3 ∨ cvv_length = 4)
    (hweak : weakFirst3 (cvv_first (cvv_pseudo_random card_number expiry_num) cvv_length))
    (h3 : cvv_length = 3 →
      cvv_pseudo_random card_number expiry_num % 900 ≠ 788 ∧
      cvv_pseudo_random card_number expiry_num % 900 ≠ 899)
    (h4 : cvv_length = 4 →
      ¬ (7880 ≤ cvv_pseudo_random card_number expiry_num % 9000 ∧
          cvv_pseudo_random card_number expiry_num % 9000 ≤ 7885) ∧
      ¬ (8990 ≤ cvv_pseudo_random card_number expiry_num % 9000 ∧
          cvv_pseudo_random card_number expiry_num % 9000 ≤ 8995)) :
    ¬ weakFirst3 (cvvValue card_number expiry_num cvv_length) := by
  intro hfinal
  set pr := cvv_pseudo_random card_number expiry_num with hpr
  have hval : cvvValue card_number expiry_num cvv_length = cvv_offset pr cvv_length := by
    show (if weakFirst3 (cvv_first pr cvv_length) then cvv_offset pr cvv_length
          else cvv_first pr cvv_length) = cvv_offset pr cvv_length
    rw [if_pos hweak]
  rw [hval] at hfinal
  rcases hlen with h | h
  · subst h
    have e1 : cvv_first pr 3 = pr % 900 + 100 := by norm_num [cvv_first]
    have e2 : cvv_offset pr 3 = (pr + 123) % 900 + 100 := by norm_num [cvv_offset]
    rw [e1, weakFirst3_three _ (by omega) (by omega)] at hweak
    rw [e2, weakFirst3_three _ (by omega) (by omega)] at hfinal
    have hu := weak_all_eq_three _ (by omega) (by omega) hweak
    have hwu := weak_all_eq_three _ (by omega) (by omega) hfinal
    have hh := h3 rfl
    omega
  · subst h
    have e1 : cvv_first pr 4 = pr % 9000 + 1000 := by norm_num [cvv_first]
    have e2 : cvv_offset pr 4 = (pr + 1234) % 9000 + 1000 := by norm_num [cvv_offset]
    rw [e1, weakFirst3_four _ (by omega) (by omega)] at hweak
    rw [e2, weakFirst3_four _ (by omega) (by omega)] at hfinal
    have hu := weak_u_decomp _ (by omega) (by omega) hweak
    have hwu := weak_u_decomp _ (by omega) (by omega) hfinal
    have hh := h4 rfl
    omega

/-- C4 witness: card ending `0036` with expiry `01/00` (seed 136, residue
233): initial CVV `333` is weak, the recomputed CVV `456` is not. -/
theorem generate_cvv_weak_avoidance_witness :
    weakFirst3 (cvv_first (cvv_pseudo_random [0, 0, 3, 6] 100) 3) ∧
    ¬ weakFirst3 (cvvValue [0, 0, 3, 6] 100 3) :=
  ⟨by decide,
   generate_cvv_weak_avoidance [0, 0, 3, 6] 100 3 (Or.inl rfl) (by decide)
     (fun _ => by decide) (fun hc => absurd hc (by decide))⟩

/-- C5: the code does not validate the BIN against the resolved brand
length.  At the failing input — the all-digit 13-digit BIN `5555555555555`,
rule-resolved to Mastercard with profile length 16 — `generate_card`
silently returns a record whose number has 18 digits instead of rejecting,
contradicting the claim (and §7 of the spec, which requires malformed BIN
input to surface an error). -/
theorem malformed_bin_silently_accepted :
    (detect_card_brand_digits emptyDB [5, 5, 5, 5, 5, 5, 5, 5, 5, 5, 5, 5, 5]).length = 16 ∧
    (generate_card emptyDB zeroMd5 year2026 zeroDraws
        [5, 5, 5, 5, 5, 5, 5, 5, 5, 5, 5, 5, 5]).map (fun r => r.cardNumber.length)
      = some 18 :=
  ⟨by decide, by decide⟩

/-- C6: every row of the transition matrix sums to exactly 1; the sampled
digit always lies in `[0, 9]`; the empty preceding sequence returns the
uniform draw; a sequence ending in digit `d` selects via the cumulative
scan of row `d` (first column whose cumulative mass exceeds the draw,
default 0). -/
theorem markov_row_stochastic_and_digit_range :
    (∀ d : Fin 10, (TRANSITION_MATRIX d.val).sum = 1) ∧
    (∀ (uniform : Fin 10) (rand : ℚ) (previous_segment : List Nat),
        get_next_digit uniform rand previous_segment ≤ 9) ∧
    (∀ (uniform : Fin 10) (rand : ℚ), get_next_digit uniform rand [] = uniform.val) ∧
    (∀ (uniform : Fin 10) (rand : ℚ) (previous_segment : List Nat) (d : Nat),
        previous_segment.getLast? = some d →
        get_next_digit uniform rand previous_segment
          = pickColumn rand (TRANSITION_MATRIX d) 0 0) := by
  refine ⟨?_, get_next_digit_le, fun u r => rfl, ?_⟩
  · intro d; fin_cases d <;> norm_num [TRANSITION_MATRIX]
  · intro u r seg d h
    unfold get_next_digit
    rw [h]

/-- C6 witness: a sequence ending in digit 5 with draw 1/2 selects from
row 5. -/
theorem markov_row_stochastic_and_digit_range_witness :
    get_next_digit 0 ((1 : ℚ) / 2) [5]
      = pickColumn ((1 : ℚ) / 2) (TRANSITION_MATRIX 5) 0 0 :=
  markov_row_stochastic_and_digit_range.2.2.2 0 ((1 : ℚ) / 2) [5] 5 rfl


/-- The year-offset selection always returns one of the tabled offsets
(the preset 3 is itself in the table). -/
theorem pickYears_mem (rand : ℚ) :
    pickYears rand year_weights 0 = 2 ∨ pickYears rand year_weights 0 = 3 ∨
    pickYears rand year_weights 0 = 4 ∨ pickYears rand year_weights 0 = 5 ∨
    pickYears rand year_weights 0 = 6 := by
  simp only [year_weights, pickYears]
  split_ifs <;> simp

theorem common_months_bounds :
    ∀ i : Fin 6, 1 ≤ common_months.getD i.val 0 ∧ common_months.getD i.val 0 ≤ 12 := by
  decide

theorem pad2_digits :
    ∀ n : Fin 100, (pad2 n.val).data.length = 2 ∧ (pad2 n.val).data.all Char.isDigit = true := by
  decide

theorem digitChar_ne_zero (d : Nat) (h1 : 1 ≤ d) (h2 : d ≤ 9) : Nat.digitChar d ≠ '0' := by
  interval_cases d <;> decide

/-- C7: `generate_expiry_date` always yields a month in `1..12`, a two-digit
year equal to `(now + 365 * k days).year % 100` for a sampled offset
`k ∈ {2, 3, 4, 5, 6}`, and the rendered string is exactly the `MM/YY` shape:
two zero-padded digit characters, a slash, two digit characters. -/
theorem generate_expiry_date_shape (yearAfterDays : Nat → Nat) (d : ExpiryDraws) :
    ∃ m y k,
      generate_expiry_date yearAfterDays d = (m, y) ∧
      1 ≤ m ∧ m ≤ 12 ∧
      (k = 2 ∨ k = 3 ∨ k = 4 ∨ k = 5 ∨ k = 6) ∧
      y = yearAfterDays (365 * k) % 100 ∧ y < 100 ∧
      (expiryString m y).data = (pad2 m).data ++ '/' :: (pad2 y).data ∧
      (pad2 m).data.length = 2 ∧ (pad2 y).data.length = 2 ∧
      ((pad2 m).data ++ (pad2 y).data).all Char.isDigit = true := by
  have hm : 1 ≤ (generate_expiry_date yearAfterDays d).1 ∧
      (generate_expiry_date yearAfterDays d).1 ≤ 12 := by
    show 1 ≤ (if d.monthSplit < 0.8 then common_months.getD d.commonIdx.val 0
          else 1 + d.anyMonth.val) ∧
        (if d.monthSplit < 0.8 then common_months.getD d.commonIdx.val 0
          else 1 + d.anyMonth.val) ≤ 12
    by_cases h : d.monthSplit < 0.8
    · rw [if_pos h]; exact common_months_bounds d.commonIdx
    · rw [if_neg h]
      have := d.anyMonth.isLt
      omega
  have hy : (generate_expiry_date yearAfterDays d).2 < 100 :=
    Nat.mod_lt _ (by omega)
  refine ⟨(generate_expiry_date yearAfterDays d).1, (generate_expiry_date yearAfterDays d).2,
    pickYears d.yearRand year_weights 0, rfl, hm.1, hm.2, pickYears_mem d.yearRand, rfl, hy,
    ?_, ?_, ?_, ?_⟩
  · simp [expiryString, String.data_append]
  · exact (pad2_digits ⟨(generate_expiry_date yearAfterDays d).1, by omega⟩).1
  · exact (pad2_digits ⟨(generate_expiry_date yearAfterDays d).2, by omega⟩).1
  · have p1 : (pad2 (generate_expiry_date yearAfterDays d).1).data.all Char.isDigit = true :=
      (pad2_digits ⟨(generate_expiry_date yearAfterDays d).1, by omega⟩).2
    have p2 : (pad2 (generate_expiry_date yearAfterDays d).2).data.all Char.isDigit = true :=
      (pad2_digits ⟨(generate_expiry_date yearAfterDays d).2, by omega⟩).2
    rw [List.all_append, p1, p2]
    rfl

/-- The 4-6-5 split reassembles to the original digits. -/
theorem split465_flatten (s : List Nat) :
    [s.take 4, (s.drop 4).take 6, s.drop 10].flatten = s := by
  show s.take 4 ++ ((s.drop 4).take 6 ++ (s.drop 10 ++ [])) = s
  rw [List.append_nil]
  have h1 : (s.drop 4).drop 6 = s.drop 10 := by rw [List.drop_drop]
  rw [← h1, List.take_append_drop, List.take_append_drop]

/-- The 4-4-4-rest split reassembles to the original digits. -/
theorem split4444_flatten (s : List Nat) :
    [s.take 4, (s.drop 4).take 4, (s.drop 8).take 4, s.drop 12].flatten = s := by
  show s.take 4 ++ ((s.drop 4).take 4 ++ ((s.drop 8).take 4 ++ (s.drop 12 ++ []))) = s
  rw [List.append_nil]
  have h1 : (s.drop 8).drop 4 = s.drop 12 := by rw [List.drop_drop]
  have h2 : (s.drop 4).drop 4 = s.drop 8 := by rw [List.drop_drop]
  rw [← h1, List.take_append_drop, ← h2, List.take_append_drop, List.take_append_drop]

/-- C8 counterexample: the format branch is chosen by the *profile* length,
not the actual digit count.  For the 11-digit BIN `37123456789`
(rule-resolved to American Express, profile length 15) the generated number
has 16 digits but is split `4-6-6`, which is neither the 4-6-5 grouping nor
groups of four. -/
theorem format_profile_mismatch_cex :
    (generate_card emptyDB zeroMd5 year2026 zeroDraws
        [3, 7, 1, 2, 3, 4, 5, 6, 7, 8, 9]).map
      (fun r => (r.cardNumber.length, r.cardNumberFormatted.map List.length))
      = some (16, [4, 6, 6]) := by
  decide

/-- C8 (amended): for records whose BIN leaves an account-segment length of
at least 4 (so the number length equals the resolved profile length — the
counterexample violates exactly this), the formatted groups concatenate to
the raw digits in order, a 15-digit number is grouped 4-6-5, and any other
profile length at least 12 is grouped 4-4-4-rest. -/
theorem format_grouping (db : List Nat → Option BrandProfile) (md5_32 : String → Nat)
    (yearAfterDays : Nat → Nat) (dr : CardDraws) (bin_code : List Nat)
    (h : bin_code.length + 5 ≤ (detect_card_brand_digits db bin_code).length)
    (h12 : 12 ≤ (detect_card_brand_digits db bin_code).length) :
    ∃ r, generate_card db md5_32 yearAfterDays dr bin_code = some r ∧
      r.cardNumberFormatted.flatten = r.cardNumber ∧
      ((detect_card_brand_digits db bin_code).length = 15 →
        r.cardNumberFormatted.map List.length = [4, 6, 5]) ∧
      ((detect_card_brand_digits db bin_code).length ≠ 15 →
        r.cardNumberFormatted.map List.length
          = [4, 4, 4, (detect_card_brand_digits db bin_code).length - 12]) := by
  have hlen : (generate_card_record db md5_32 yearAfterDays dr bin_code).cardNumber.length
      = (detect_card_brand_digits db bin_code).length := by
    rw [generate_card_record_number_length]; omega
  have hfmt : (generate_card_record db md5_32 yearAfterDays dr bin_code).cardNumberFormatted
      = if (detect_card_brand_digits db bin_code).length = 15 then
          [(generate_card_record db md5_32 yearAfterDays dr bin_code).cardNumber.take 4,
           ((generate_card_record db md5_32 yearAfterDays dr bin_code).cardNumber.drop 4).take 6,
           (generate_card_record db md5_32 yearAfterDays dr bin_code).cardNumber.drop 10]
        else
          [(generate_card_record db md5_32 yearAfterDays dr bin_code).cardNumber.take 4,
           ((generate_card_record db md5_32 yearAfterDays dr bin_code).cardNumber.drop 4).take 4,
           ((generate_card_record db md5_32 yearAfterDays dr bin_code).cardNumber.drop 8).take 4,
           (generate_card_record db md5_32 yearAfterDays dr bin_code).cardNumber.drop 12] := rfl
  refine ⟨generate_card_record db md5_32 yearAfterDays dr bin_code,
    generate_card_never_retries db md5_32 yearAfterDays dr bin_code, ?_, ?_, ?_⟩
  · by_cases hL : (detect_card_brand_digits db bin_code).length = 15
    · rw [hfmt, if_pos hL]; exact split465_flatten _
    · rw [hfmt, if_neg hL]; exact split4444_flatten _
  · intro hL
    rw [hfmt, if_pos hL]
    simp [List.length_take, List.length_drop, hlen, hL]
  · intro hL
    rw [hfmt, if_neg hL]
    simp [List.length_take, List.length_drop, hlen]
    omega

/-- C8 witness: the spec's literal 15-digit example `bin = "371234"`. -/
theorem format_grouping_witness :
    ∃ r, generate_card emptyDB zeroMd5 year2026 zeroDraws [3, 7, 1, 2, 3, 4] = some r ∧
      r.cardNumberFormatted.flatten = r.cardNumber ∧
      r.cardNumberFormatted.map List.length = [4, 6, 5] := by
  obtain ⟨r, hr, hflat, h15, _⟩ :=
    format_grouping emptyDB zeroMd5 year2026 zeroDraws [3, 7, 1, 2, 3, 4]
      (by decide) (by decide)
  exact ⟨r, hr, hflat, h15 (by decide)⟩

/-- C9: `detect_card_brand` is total over arbitrary strings (the model is a
total function; slicing and `startswith` never raise in Python), and any
input — including the empty string — that misses the table and matches no
rule prefix resolves to the Unknown/16/3 fallback profile. -/
theorem detect_card_brand_total_fallback :
    (∀ (db : String → Option BrandProfile) (bin_code : String),
      db bin_code = none → db (bin_code.take 4) = none → db (bin_code.take 2) = none →
      db (bin_code.take 1) = none →
      startswith bin_code "4" = false → startswith bin_code "5" = false →
      startswith bin_code "34" = false → startswith bin_code "37" = false →
      detect_card_brand db bin_code = unknownProfile) ∧
    (∀ db : String → Option BrandProfile, db "" = none →
      detect_card_brand db "" = unknownProfile) := by
  constructor
  · intro db bin h1 h2 h3 h4 s4 s5 s34 s37
    simp [detect_card_brand, detect_by_rules, h1, h2, h3, h4, s4, s5, s34, s37]
  · intro db h
    have e4 : ("" : String).take 4 = "" := by decide
    have e2 : ("" : String).take 2 = "" := by decide
    have e1 : ("" : String).take 1 = "" := by decide
    have s4 : startswith "" "4" = false := by decide
    have s5 : startswith "" "5" = false := by decide
    have s34 : startswith "" "34" = false := by decide
    have s37 : startswith "" "37" = false := by decide
    simp [detect_card_brand, detect_by_rules, e4, e2, e1, h, s4, s5, s34, s37]

/-- C9 witness: the spec's unrecognized BIN `999999`, and the empty string,
against the empty table. -/
theorem detect_card_brand_total_fallback_witness :
    detect_card_brand emptyDBStr "999999" = unknownProfile ∧
    detect_card_brand emptyDBStr "" = unknownProfile :=
  ⟨detect_card_brand_total_fallback.1 emptyDBStr "999999" rfl rfl rfl rfl
     (by decide) (by decide) (by decide) (by decide),
   detect_card_brand_total_fallback.2 emptyDBStr rfl⟩

/-- C10: for either admissible CVV length the produced value lies in
`[100, 999]` (3-digit) or `[1000, 9999]` (4-digit), the rendered CVV string
has exactly `cvv_length` digit characters, never starts with `'0'`, and its
first three characters are never `000`. -/
theorem generate_cvv_range_invariants (card_number : List Nat) (expiry_num : Nat)
    (cvv_length : Nat) (hlen : cvv_length = 3 ∨ cvv_length = 4) :
    (cvv_length = 3 → 100 ≤ cvvValue card_number expiry_num cvv_length ∧
        cvvValue card_number expiry_num cvv_length ≤ 999) ∧
    (cvv_length = 4 → 1000 ≤ cvvValue card_number expiry_num cvv_length ∧
        cvvValue card_number expiry_num cvv_length ≤ 9999) ∧
    (generate_cvv card_number expiry_num cvv_length).length = cvv_length ∧
    (generate_cvv card_number expiry_num cvv_length).head? ≠ some '0' ∧
    (generate_cvv card_number expiry_num cvv_length).take 3 ≠ ['0', '0', '0'] := by
  rcases hlen with h | h
  · subst h
    have hv : cvvValue card_number expiry_num 3
        = (if weakFirst3 (cvv_pseudo_random card_number expiry_num % 900 + 100)
           then (cvv_pseudo_random card_number expiry_num + 123) % 900 + 100
           else cvv_pseudo_random card_number expiry_num % 900 + 100) := rfl
    have hb : 100 ≤ cvvValue card_number expiry_num 3 ∧
        cvvValue card_number expiry_num 3 ≤ 999 := by
      rw [hv]; split <;> constructor <;> omega
    have hdata := repr_data_three (cvvValue card_number expiry_num 3) hb.1
      (by omega : cvvValue card_number expiry_num 3 < 1000)
    have hne : Nat.digitChar (cvvValue card_number expiry_num 3 / 100) ≠ '0' :=
      digitChar_ne_zero (cvvValue card_number expiry_num 3 / 100) (by omega) (by omega)
    have hcvv : generate_cvv card_number expiry_num 3
        = [Nat.digitChar (cvvValue card_number expiry_num 3 / 100),
           Nat.digitChar (cvvValue card_number expiry_num 3 / 10 % 10),
           Nat.digitChar (cvvValue card_number expiry_num 3 % 10)] := by
      show (Nat.repr (cvvValue card_number expiry_num 3)).data.take 3 = _
      rw [hdata]
      rfl
    refine ⟨fun _ => hb, fun hc => absurd hc (by omega), ?_, ?_, ?_⟩
    · rw [hcvv]; rfl
    · rw [hcvv]; intro hc; simp at hc; exact hne hc
    · rw [hcvv]; intro hc; simp at hc; exact hne hc.1
  · subst h
    have hv : cvvValue card_number expiry_num 4
        = (if weakFirst3 (cvv_pseudo_random card_number expiry_num % 9000 + 1000)
           then (cvv_pseudo_random card_number expiry_num + 1234) % 9000 + 1000
           else cvv_pseudo_random card_number expiry_num % 9000 + 1000) := rfl
    have hb : 1000 ≤ cvvValue card_number expiry_num 4 ∧
        cvvValue card_number expiry_num 4 ≤ 9999 := by
      rw [hv]; split <;> constructor <;> omega
    have hdata := repr_data_four (cvvValue card_number expiry_num 4) hb.1
      (by omega : cvvValue card_number expiry_num 4 < 10000)
    have hne : Nat.digitChar (cvvValue card_number expiry_num 4 / 1000) ≠ '0' :=
      digitChar_ne_zero (cvvValue card_number expiry_num 4 / 1000) (by omega) (by omega)
    have hcvv : generate_cvv card_number expiry_num 4
        = [Nat.digitChar (cvvValue card_number expiry_num 4 / 1000),
           Nat.digitChar (cvvValue card_number expiry_num 4 / 100 % 10),
           Nat.digitChar (cvvValue card_number expiry_num 4 / 10 % 10),
           Nat.digitChar (cvvValue card_number expiry_num 4 % 10)] := by
      show (Nat.repr (cvvValue card_number expiry_num 4)).data.take 4 = _
      rw [hdata]
      rfl
    refine ⟨fun hc => absurd hc (by omega), fun _ => hb, ?_, ?_, ?_⟩
    · rw [hcvv]; rfl
    · rw [hcvv]; intro hc; simp at hc; exact hne hc
    · rw [hcvv]; intro hc; simp at hc; exact hne hc.1

/-- C10 witness: card ending `1234` with expiry `01/01`, 3-digit CVV. -/
theorem generate_cvv_range_invariants_witness :
    (100 ≤ cvvValue [1, 2, 3, 4] 101 3 ∧ cvvValue [1, 2, 3, 4] 101 3 ≤ 999) ∧
    (generate_cvv [1, 2, 3, 4] 101 3).length = 3 := by
  have h := generate_cvv_range_invariants [1, 2, 3, 4] 101 3 (Or.inl rfl)
  exact ⟨h.1 rfl, h.2.2.1⟩

end CardGen
